import Mathlib

/-!
Shallow embedding of backend/server.js (itz-kishor/server).

The server is an Express application over Firebase: an in-memory job
registry (processingJobs), an SSE conversion pipeline
(GET /api/process-stream/:jobId) that uploads the original PDF, rasterizes
each page, uploads page images and persists a metadata record, plus
approve / delete / update endpoints over two Firestore collections
(flipbooks = Public tier, team-member = Pending tier) and a blob bucket.

Modelling conventions:
  - Firestore collections are association lists from document id to
    BookData; the blob bucket is the list of stored blob paths.
  - External effects that can fail (blob save, PDF decode, page
    render/upload, Firestore write) are supplied as an Effects record of
    Except results; the pipeline is a pure function of the state and these
    results, mirroring the control flow of the try/catch/finally block.
  - JS truthiness on optional strings (undefined or empty string is falsy)
    is modelled by jsTruthyStr.
  - Math.round((i / N) * 100) over IEEE doubles is modelled as exact
    rational rounding: jsRound (i * 100) N = floor(i * 100 / N + 1/2).
  - The Firestore transaction in /api/approve-flipbook either performs
    both writes or none: it is modelled as a single pure state update in
    the success case and the unchanged state when the get fails.
-/

namespace Server

/-- Truthiness of an optional string in JS: undefined and the empty string are falsy. -/
def jsTruthyStr : Option String → Bool
  | none => false
  | some s => s != ""

/-- Model of Math.round (num / den): round-half-up of the exact rational. -/
def jsRound (num den : Nat) : Nat := (2 * num + den) / (2 * den)

/-- Fallback applied by the SSE catch block: error.message or a default when empty. -/
def jsErrMessage (m : String) : String :=
  if m = "" then "An unknown server error occurred." else m

/-- Multer in-memory uploaded file: originalname, buffer and mimetype. -/
structure UploadedFile where
  originalname : String
  buffer : List Nat
  mimetype : String
deriving DecidableEq

/-- Entry of the in-memory processingJobs registry (createUploadJob). -/
structure Job where
  file : UploadedFile
  targetCollection : String
  uid : Option String
  mainCategory : String
  subcategory : String
deriving DecidableEq

/-- Firestore document written by the pipeline (bookData object). The uid
field is present only when the job carried a truthy uid. -/
structure BookData where
  mainCategory : String
  subcategory : String
  pdfName : String
  pdfPathInStorage : String
  imageFolderPath : String
  pageImageUrls : List String
  thumbnailUrl : Option String
  timestamp : Nat
  uid : Option String
deriving DecidableEq

/-- Lookup in an association list keyed by strings (object / collection access). -/
def alGet {α : Type} : List (String × α) → String → Option α
  | [], _ => none
  | (k, v) :: rest, key => if k = key then some v else alGet rest key

/-- Overwriting insert into an association list (doc(id).set / object assignment). -/
def alSet {α : Type} (l : List (String × α)) (key : String) (v : α) : List (String × α) :=
  (key, v) :: l.filter (fun kv => kv.1 != key)

/-- Removal from an association list (doc(id).delete / the delete operator). -/
def alDelete {α : Type} (l : List (String × α)) (key : String) : List (String × α) :=
  l.filter (fun kv => kv.1 != key)

/-- Collection of persisted records, keyed by bookId. -/
abbrev Collection := List (String × BookData)

/-- Whole mutable state of the server: the job registry, the two Firestore
collections and the set of blob paths stored in the bucket. -/
structure ServerState where
  processingJobs : List (String × Job)
  flipbooks : Collection
  teamMember : Collection
  blobs : List String
deriving DecidableEq

/-- HTTP response, reduced to the status code and the message field of the JSON body
(for the job-creation route the body is the jobId). -/
structure HttpResponse where
  status : Nat
  message : String
deriving DecidableEq

/-- Events written to the SSE stream by sendEvent. -/
inductive Event where
  | log (message : String)
  | progress (value : Nat)
  | done (message : String)
  | error (message : String)
deriving DecidableEq

/-- Storing a blob at a path (bucket.file(path).save overwrites). -/
def addBlob (bs : List String) (p : String) : List String :=
  p :: bs.filter (fun q => q != p)

/-- Check whether the first character list is an initial segment of the second. -/
def beginsWithChars : List Char → List Char → Bool
  | [], _ => true
  | _ :: _, [] => false
  | p :: ps, c :: cs => p == c && beginsWithChars ps cs

/-- Path-prefix test: the path q lies under the given folder. -/
def pathBeginsWith (q folder : String) : Bool :=
  beginsWithChars folder.data q.data

/-- Prefix deletion: bucket.deleteFiles with a folder prefix removes every blob
whose path starts with it. -/
def deleteFilesUnder (bs : List String) (folder : String) : List String :=
  bs.filter (fun q => !(pathBeginsWith q folder))

/-- Best-effort single-blob delete: bucket.file(p).delete().catch(() =\x7b\x7d) removes the
blob when present and swallows the failure when it is absent. -/
def deleteBlobBestEffort (bs : List String) (p : String) : List String :=
  bs.filter (fun q => q != p)

/-- Path of the original upload: source-pdfs/bookId/originalname. -/
def originalPdfPath (bookId name : String) : String :=
  "source-pdfs/" ++ bookId ++ "/" ++ name

/-- Folder of the page images: processed-images/bookId/ . -/
def processedImagesFolder (bookId : String) : String :=
  "processed-images/" ++ bookId ++ "/"

/-- Path of the i-th page image (1-indexed): processed-images/bookId/page-i.jpg . -/
def pageImagePath (bookId : String) (i : Nat) : String :=
  processedImagesFolder bookId ++ "page-" ++ toString i ++ ".jpg"

/-- Request body/file for the two upload routes. Absent multipart or body fields are none. -/
structure UploadRequest where
  file : Option UploadedFile
  mainCategory : Option String
  subcategory : Option String
  uid : Option String
deriving DecidableEq

/-- createUploadJob from server.js: validates the file and the two category fields,
then registers a Job under a fresh jobId and answers 200 with the jobId. -/
def createUploadJob (st : ServerState) (req : UploadRequest) (targetCollection : String)
    (uid : Option String) (jobId : String) : HttpResponse × ServerState :=
  match req.file with
  | none => ({ status := 400, message := "Missing file." }, st)
  | some f =>
    if !jsTruthyStr req.mainCategory || !jsTruthyStr req.subcategory then
      ({ status := 400, message := "Missing main category or subcategory." }, st)
    else
      let job : Job :=
        { file := f, targetCollection := targetCollection, uid := uid,
          mainCategory := req.mainCategory.getD "", subcategory := req.subcategory.getD "" }
      ({ status := 200, message := jobId },
       { st with processingJobs := alSet st.processingJobs jobId job })

/-- POST /api/upload-pdf: submit a job targeting the public flipbooks collection. -/
def uploadPdf (st : ServerState) (req : UploadRequest) (jobId : String) :
    HttpResponse × ServerState :=
  createUploadJob st req "flipbooks" none jobId

/-- POST /api/upload-team-pdf: requires a truthy uid, then submits a job targeting
the team-member collection. -/
def uploadTeamPdf (st : ServerState) (req : UploadRequest) (jobId : String) :
    HttpResponse × ServerState :=
  if !jsTruthyStr req.uid then
    ({ status := 400, message := "User ID (uid) is required for this operation." }, st)
  else
    createUploadJob st req "team-member" req.uid jobId

/-- Registry read performed at the top of GET /api/process-stream/:jobId
(const job = processingJobs[jobId]). It does not mutate the registry. -/
def lookupJobStep (st : ServerState) (jobId : String) : Option Job :=
  alGet st.processingJobs jobId

/-- Registry cleanup performed in the finally block of the stream handler
(delete processingJobs[jobId]). -/
def cleanupJobStep (st : ServerState) (jobId : String) : ServerState :=
  { st with processingJobs := alDelete st.processingJobs jobId }

/-- Results of the external effects one pipeline run performs, in program order:
saving the original blob, decoding the PDF (yielding numPages), processing one page
(render, upload, signed URL — any failure inside page i aborts with its message), and
the Firestore write. The timestamp stands for the server timestamp sentinel. -/
structure Effects where
  saveOriginalResult : Except String Unit
  decodeResult : Except String Nat
  pageStep : Nat → Except String String
  persistResult : Except String Unit
  timestamp : Nat

/-- Effects record in which every step succeeds, the PDF has numPages pages and
page i receives the signed URL urlOf i. -/
def okEffects (numPages : Nat) (urlOf : Nat → String) (ts : Nat) : Effects :=
  { saveOriginalResult := Except.ok (), decodeResult := Except.ok numPages,
    pageStep := fun i => Except.ok (urlOf i), persistResult := Except.ok (), timestamp := ts }

/-- Accumulated output of the page loop: SSE events, blob upload paths, signed URLs,
and the message of the first failure when one occurred. -/
structure LoopResult where
  events : List Event
  uploads : List String
  urls : List String
  failure : Option String
deriving DecidableEq

/-- Page loop of the pipeline (for i = 1..numPages), processing pages i, i+1, ...
while rem pages remain. Each successful page uploads its image, records its URL and
emits progress Math.round(i / numPages * 100); a failing page aborts the loop. -/
def pageLoopFrom (ps : Nat → Except String String) (bookId : String) (numPages : Nat) :
    Nat → Nat → LoopResult
  | 0, _ => { events := [], uploads := [], urls := [], failure := none }
  | rem + 1, i =>
    match ps i with
    | Except.error m => { events := [], uploads := [], urls := [], failure := some m }
    | Except.ok url =>
      let rest := pageLoopFrom ps bookId numPages rem (i + 1)
      { events := Event.progress (jsRound (i * 100) numPages) :: rest.events,
        uploads := pageImagePath bookId i :: rest.uploads,
        urls := url :: rest.urls,
        failure := rest.failure }

/-- Full page loop, pages 1 through numPages. -/
def pageLoop (ps : Nat → Except String String) (bookId : String) (numPages : Nat) :
    LoopResult :=
  pageLoopFrom ps bookId numPages numPages 1

/-- Firestore write db.collection(name).doc(id).set(data); the server only ever
passes the two collection names below. -/
def setCollection (st : ServerState) (name bookId : String) (d : BookData) : ServerState :=
  if name = "flipbooks" then { st with flipbooks := alSet st.flipbooks bookId d }
  else if name = "team-member" then { st with teamMember := alSet st.teamMember bookId d }
  else st

/-- Read of a record from the named tier collection. -/
def tierGet (st : ServerState) (name bookId : String) : Option BookData :=
  if name = "flipbooks" then alGet st.flipbooks bookId
  else if name = "team-member" then alGet st.teamMember bookId
  else none

/-- Result of one run of the stream handler: the job it consumed (none when the
registry had no entry), the SSE events written, the blob paths uploaded in order,
and the final server state. The connection is closed (res.end) at the end of every run. -/
structure StreamResult where
  claimedJob : Option Job
  events : List Event
  uploads : List String
  state : ServerState
deriving DecidableEq

/-- Body of the stream handler once the job was found: the try/catch/finally of
GET /api/process-stream/:jobId. Any failure jumps to the catch, which emits one
error event with the failure message (or a default when empty); the finally always
removes the registry entry. -/
def processStreamWithJob (st : ServerState) (jobId bookId : String) (job : Job)
    (fx : Effects) : StreamResult :=
  let ev1 : List Event :=
    [Event.log ("Server received job for collection: " ++ job.targetCollection ++ "."),
     Event.log "Uploading original PDF to storage..."]
  let pdfPath := originalPdfPath bookId job.file.originalname
  match fx.saveOriginalResult with
  | Except.error m =>
    { claimedJob := some job, events := ev1 ++ [Event.error (jsErrMessage m)],
      uploads := [], state := cleanupJobStep st jobId }
  | Except.ok _ =>
    let st1 : ServerState := { st with blobs := addBlob st.blobs pdfPath }
    let ev2 := ev1 ++ [Event.log "Original PDF uploaded.", Event.log "Converting PDF to images..."]
    match fx.decodeResult with
    | Except.error m =>
      { claimedJob := some job, events := ev2 ++ [Event.error (jsErrMessage m)],
        uploads := [pdfPath], state := cleanupJobStep st1 jobId }
    | Except.ok numPages =>
      let lr := pageLoop fx.pageStep bookId numPages
      let st2 : ServerState := { st1 with blobs := lr.uploads.foldl addBlob st1.blobs }
      match lr.failure with
      | some m =>
        { claimedJob := some job, events := ev2 ++ lr.events ++ [Event.error (jsErrMessage m)],
          uploads := pdfPath :: lr.uploads, state := cleanupJobStep st2 jobId }
      | none =>
        let ev3 := ev2 ++ lr.events ++
          [Event.log "All pages converted and uploaded.",
           Event.log ("Saving flipbook metadata to " ++ job.targetCollection ++ "...")]
        let bookData : BookData :=
          { mainCategory := job.mainCategory, subcategory := job.subcategory,
            pdfName := job.file.originalname, pdfPathInStorage := pdfPath,
            imageFolderPath := processedImagesFolder bookId,
            pageImageUrls := lr.urls, thumbnailUrl := lr.urls.head?,
            timestamp := fx.timestamp,
            uid := if jsTruthyStr job.uid then job.uid else none }
        match fx.persistResult with
        | Except.error m =>
          { claimedJob := some job, events := ev3 ++ [Event.error (jsErrMessage m)],
            uploads := pdfPath :: lr.uploads, state := cleanupJobStep st2 jobId }
        | Except.ok _ =>
          let st3 := setCollection st2 job.targetCollection bookId bookData
          { claimedJob := some job,
            events := ev3 ++ [Event.log "Metadata saved.",
                              Event.done "Flipbook processed successfully!"],
            uploads := pdfPath :: lr.uploads, state := cleanupJobStep st3 jobId }

/-- GET /api/process-stream/:jobId. When the registry has no entry for jobId the
handler emits one error event and returns before the try block, leaving the state
unchanged; bookId is the uuid generated for the run. -/
def processStream (st : ServerState) (jobId bookId : String) (fx : Effects) : StreamResult :=
  match lookupJobStep st jobId with
  | none =>
    { claimedJob := none, events := [Event.error "Job not found or has expired."],
      uploads := [], state := st }
  | some job => processStreamWithJob st jobId bookId job fx

/-- Interleaving of two stream handlers for the same jobId that the event loop
permits: each handler awaits external IO between its registry read (const job =
processingJobs[jobId]) and its finally cleanup, so both reads can run before
either delete. Components: job received by run A, job received by run B, final state. -/
def twoStreamsInterleaved (st : ServerState) (jobId : String) :
    Option Job × Option Job × ServerState :=
  (lookupJobStep st jobId,
   lookupJobStep st jobId,
   cleanupJobStep (cleanupJobStep st jobId) jobId)

/-- Blob cleanup shared by the delete endpoints and the update endpoint: prefix
delete of the image folder when truthy, then best-effort delete of the original
PDF blob when truthy. -/
def deleteDocBlobs (st : ServerState) (d : BookData) : ServerState :=
  let st1 :=
    if d.imageFolderPath != "" then
      { st with blobs := deleteFilesUnder st.blobs d.imageFolderPath }
    else st
  if d.pdfPathInStorage != "" then
    { st1 with blobs := deleteBlobBestEffort st1.blobs d.pdfPathInStorage }
  else st1

/-- DELETE /api/delete-flipbook: public tier. Reads the record, deletes the page
image blobs, best-effort deletes the original, then deletes the record. -/
def deleteFlipbook (st : ServerState) (bodyId : Option String) : HttpResponse × ServerState :=
  if !jsTruthyStr bodyId then ({ status := 400, message := "Flipbook ID is required." }, st)
  else
    let bookId := bodyId.getD ""
    match alGet st.flipbooks bookId with
    | none => ({ status := 404, message := "Flipbook not found." }, st)
    | some d =>
      let st1 := deleteDocBlobs st d
      ({ status := 200, message := "Public flipbook deleted successfully." },
       { st1 with flipbooks := alDelete st1.flipbooks bookId })

/-- DELETE /api/delete-team-flipbook: pending tier, same cascade as the public one. -/
def deleteTeamFlipbook (st : ServerState) (bodyId : Option String) :
    HttpResponse × ServerState :=
  if !jsTruthyStr bodyId then ({ status := 400, message := "Flipbook ID is required." }, st)
  else
    let bookId := bodyId.getD ""
    match alGet st.teamMember bookId with
    | none => ({ status := 404, message := "Pending flipbook not found." }, st)
    | some d =>
      let st1 := deleteDocBlobs st d
      ({ status := 200, message := "Pending flipbook deleted successfully." },
       { st1 with teamMember := alDelete st1.teamMember bookId })

/-- POST /api/approve-flipbook: inside one Firestore transaction, read the pending
record, copy its full data to the public collection under the same id and delete the
pending record; when the record is absent the transaction throws, nothing is written
and the route answers 500 with the thrown message. -/
def approveFlipbook (st : ServerState) (bodyId : Option String) : HttpResponse × ServerState :=
  if !jsTruthyStr bodyId then ({ status := 400, message := "Flipbook ID is required." }, st)
  else
    let bookId := bodyId.getD ""
    match alGet st.teamMember bookId with
    | none =>
      ({ status := 500, message := "Pending flipbook does not exist. It may have been deleted." },
       st)
    | some d =>
      ({ status := 200, message := "Flipbook approved and published successfully!" },
       { st with flipbooks := alSet st.flipbooks bookId d,
                 teamMember := alDelete st.teamMember bookId })

/-- POST /api/update-team-pdf/:bookId: replace the file of an existing pending record.
Performs the blob cleanup, re-uploads and re-rasterizes the new file under the same
bookId (without progress events), then merges only the artifact fields and the
timestamp into the existing record via docRef.update. Any thrown failure answers 500. -/
def updateTeamPdf (st : ServerState) (bookId : String) (uid : Option String)
    (newFile : Option UploadedFile) (fx : Effects) : HttpResponse × ServerState :=
  match newFile with
  | none => ({ status := 400, message := "Missing book ID, user ID, or new file for update." }, st)
  | some nf =>
    if bookId = "" || !jsTruthyStr uid then
      ({ status := 400, message := "Missing book ID, user ID, or new file for update." }, st)
    else
      match alGet st.teamMember bookId with
      | none => ({ status := 404, message := "Flipbook to update not found." }, st)
      | some oldData =>
        let st1 := deleteDocBlobs st oldData
        let pdfPath := originalPdfPath bookId nf.originalname
        match fx.saveOriginalResult with
        | Except.error _ =>
          ({ status := 500, message := "Server error during update process." }, st1)
        | Except.ok _ =>
          let st2 := { st1 with blobs := addBlob st1.blobs pdfPath }
          match fx.decodeResult with
          | Except.error _ =>
            ({ status := 500, message := "Server error during update process." }, st2)
          | Except.ok numPages =>
            let lr := pageLoop fx.pageStep bookId numPages
            let st3 := { st2 with blobs := lr.uploads.foldl addBlob st2.blobs }
            match lr.failure with
            | some _ =>
              ({ status := 500, message := "Server error during update process." }, st3)
            | none =>
              let updated : BookData :=
                { oldData with
                  pdfName := nf.originalname, pdfPathInStorage := pdfPath,
                  imageFolderPath := processedImagesFolder bookId,
                  pageImageUrls := lr.urls, thumbnailUrl := lr.urls.head?,
                  timestamp := fx.timestamp }
              match fx.persistResult with
              | Except.error _ =>
                ({ status := 500, message := "Server error during update process." }, st3)
              | Except.ok _ =>
                ({ status := 200, message := "Flipbook updated successfully!" },
                 { st3 with teamMember := alSet st3.teamMember bookId updated })

/-- Values carried by the progress events of an event list, in order. -/
def progressValues : List Event → List Nat
  | [] => []
  | Event.progress v :: rest => v :: progressValues rest
  | _ :: rest => progressValues rest

/-- Terminal events are done and error; the stream closes right after emitting one. -/
def isTerminalEvent : Event → Bool
  | Event.done _ => true
  | Event.error _ => true
  | _ => false

/-- Number of terminal events in a list. -/
def terminalCount (evs : List Event) : Nat :=
  evs.countP (fun e => isTerminalEvent e)

/-- Message of the first failing pipeline step of a run, in program order
(original save, decode, page loop, persist); none when every step succeeds. -/
def pipelineFailure (bookId : String) (fx : Effects) : Option String :=
  match fx.saveOriginalResult with
  | Except.error m => some m
  | Except.ok _ =>
    match fx.decodeResult with
    | Except.error m => some m
    | Except.ok numPages =>
      match (pageLoop fx.pageStep bookId numPages).failure with
      | some m => some m
      | none =>
        match fx.persistResult with
        | Except.error m => some m
        | Except.ok _ => none

/-- Signed URLs of a fully successful run: one per page, in page order. -/
def okUrls (urlOf : Nat → String) (numPages : Nat) : List String :=
  (List.range' 1 numPages).map urlOf

/-- Page-image upload paths of a fully successful run, in page order. -/
def okPageUploads (bookId : String) (numPages : Nat) : List String :=
  (List.range' 1 numPages).map (pageImagePath bookId)

/-- Progress events of a fully successful run over numPages pages. -/
def okProgressEvents (numPages : Nat) : List Event :=
  (List.range' 1 numPages).map (fun p => Event.progress (jsRound (p * 100) numPages))

/-- Event stream of a fully successful run. -/
def okEvents (collName : String) (numPages : Nat) : List Event :=
  Event.log ("Server received job for collection: " ++ collName ++ ".") ::
  Event.log "Uploading original PDF to storage..." ::
  Event.log "Original PDF uploaded." ::
  Event.log "Converting PDF to images..." ::
  (okProgressEvents numPages ++
   [Event.log "All pages converted and uploaded.",
    Event.log ("Saving flipbook metadata to " ++ collName ++ "..."),
    Event.log "Metadata saved.",
    Event.done "Flipbook processed successfully!"])

/-- Blob set after the original upload and the given page-image uploads. -/
def runBlobs (st : ServerState) (bookId fileName : String) (pageUploads : List String) :
    List String :=
  pageUploads.foldl addBlob (addBlob st.blobs (originalPdfPath bookId fileName))

/-- Record persisted by a fully successful run. -/
def okBookData (job : Job) (bookId : String) (urlOf : Nat → String) (numPages ts : Nat) :
    BookData :=
  { mainCategory := job.mainCategory, subcategory := job.subcategory,
    pdfName := job.file.originalname,
    pdfPathInStorage := originalPdfPath bookId job.file.originalname,
    imageFolderPath := processedImagesFolder bookId,
    pageImageUrls := okUrls urlOf numPages,
    thumbnailUrl := (okUrls urlOf numPages).head?,
    timestamp := ts,
    uid := if jsTruthyStr job.uid then job.uid else none }

/-- Record persisted by a run whose page loop produced the given URLs. -/
def runBookData (job : Job) (bookId : String) (urls : List String) (ts : Nat) : BookData :=
  { mainCategory := job.mainCategory, subcategory := job.subcategory,
    pdfName := job.file.originalname,
    pdfPathInStorage := originalPdfPath bookId job.file.originalname,
    imageFolderPath := processedImagesFolder bookId,
    pageImageUrls := urls, thumbnailUrl := urls.head?, timestamp := ts,
    uid := if jsTruthyStr job.uid then job.uid else none }

/-- Merge performed by docRef.update in the update endpoint: only the artifact
fields and the timestamp change, every other field keeps its old value. -/
def updatedBookData (old : BookData) (bookId fileName : String) (urls : List String)
    (ts : Nat) : BookData :=
  { old with
    pdfName := fileName,
    pdfPathInStorage := originalPdfPath bookId fileName,
    imageFolderPath := processedImagesFolder bookId,
    pageImageUrls := urls,
    thumbnailUrl := urls.head?,
    timestamp := ts }

/-! Concrete fixtures used by witnesses and counterexamples. -/

/-- Example uploaded file. -/
def exFile : UploadedFile :=
  { originalname := "doc.pdf", buffer := [1, 2, 3], mimetype := "application/pdf" }

/-- Example registered job targeting the pending tier. -/
def exJob : Job :=
  { file := exFile, targetCollection := "team-member", uid := some "user1",
    mainCategory := "Sports", subcategory := "Tennis" }

/-- Example persisted record of the pending tier. -/
def exBook : BookData :=
  { mainCategory := "Sports", subcategory := "Tennis", pdfName := "doc.pdf",
    pdfPathInStorage := "source-pdfs/book1/doc.pdf",
    imageFolderPath := "processed-images/book1/",
    pageImageUrls := ["u1"], thumbnailUrl := some "u1", timestamp := 5, uid := some "user1" }

/-- Example signed URL generator. -/
def exUrl (i : Nat) : String := "https://signed/page" ++ toString i

/-- Server state with empty registry, collections and bucket. -/
def emptyState : ServerState :=
  { processingJobs := [], flipbooks := [], teamMember := [], blobs := [] }

/-- Server state whose registry holds one job under tok1. -/
def exRegistryState : ServerState :=
  { processingJobs := [("tok1", exJob)], flipbooks := [], teamMember := [], blobs := [] }

/-- Server state whose pending tier holds one record under book1. -/
def exApproveState : ServerState :=
  { processingJobs := [], flipbooks := [], teamMember := [("book1", exBook)], blobs := [] }

/-- Server state holding book1 in both tiers whose original PDF blob is already
absent from the bucket (only a page image and an unrelated blob are stored). -/
def exDeleteState : ServerState :=
  { processingJobs := [], flipbooks := [("book1", exBook)], teamMember := [("book1", exBook)],
    blobs := ["processed-images/book1/page-1.jpg", "other/blob.bin"] }

/-- Example upload request carrying a file, both categories and a uid. -/
def exUploadReq : UploadRequest :=
  { file := some exFile, mainCategory := some "Sports", subcategory := some "Tennis",
    uid := some "user1" }

/-- Fully successful effects for a 201-page document. -/
def fx201 : Effects := okEffects 201 exUrl 7

/-- State reached by submitting a team upload, running the pipeline and approving
the resulting record: an end-to-end reachable state. -/
def exChainState : ServerState :=
  (approveFlipbook
    (processStream (uploadTeamPdf emptyState exUploadReq "job1").2 "job1" "book1"
      (okEffects 1 exUrl 42)).state
    (some "book1")).2

/-! Helper lemmas about the embedded operations. -/

theorem alGet_alSet_self {α : Type} (l : List (String × α)) (k : String) (v : α) :
    alGet (alSet l k v) k = some v := by
  simp [alSet, alGet]

theorem alGet_alDelete_self {α : Type} (l : List (String × α)) (k : String) :
    alGet (alDelete l k) k = none := by
  induction l with
  | nil => rfl
  | cons kv rest ih =>
    by_cases h : kv.1 = k
    · simpa [alDelete, List.filter_cons, h] using ih
    · simpa [alDelete, List.filter_cons, h, alGet] using ih

theorem jsRound_mono (den : Nat) {a b : Nat} (h : a ≤ b) :
    jsRound a den ≤ jsRound b den :=
  Nat.div_le_div_right (by omega)

theorem jsRound_full (n : Nat) (h : 1 ≤ n) : jsRound (n * 100) n = 100 := by
  unfold jsRound
  have h2 : 2 * (n * 100) + n = 2 * n * 100 + n := by ring
  rw [h2, Nat.mul_add_div (by omega), Nat.div_eq_of_lt (by omega)]

theorem jsRound_first_pos (n : Nat) (h1 : 1 ≤ n) (h2 : n ≤ 200) :
    0 < jsRound 100 n := by
  unfold jsRound
  exact (Nat.one_le_div_iff (by omega)).mpr (by omega)

theorem pageLoopFrom_ok (ps : Nat → Except String String) (urlOf : Nat → String)
    (bookId : String) (n : Nat) (h : ∀ i, ps i = Except.ok (urlOf i)) :
    ∀ rem i, pageLoopFrom ps bookId n rem i =
      { events := (List.range' i rem).map (fun p => Event.progress (jsRound (p * 100) n)),
        uploads := (List.range' i rem).map (pageImagePath bookId),
        urls := (List.range' i rem).map urlOf,
        failure := none } := by
  intro rem
  induction rem with
  | zero => intro i; simp [pageLoopFrom]
  | succ rem ih =>
    intro i
    simp only [pageLoopFrom, h i]
    rw [ih (i + 1)]
    simp [List.range'_succ]

theorem pageLoop_ok (ps : Nat → Except String String) (urlOf : Nat → String)
    (bookId : String) (n : Nat) (h : ∀ i, ps i = Except.ok (urlOf i)) :
    pageLoop ps bookId n =
      { events := okProgressEvents n, uploads := okPageUploads bookId n,
        urls := okUrls urlOf n, failure := none } := by
  rw [pageLoop, pageLoopFrom_ok ps urlOf bookId n h n 1]
  rfl

theorem pageLoopFrom_terminalCount (ps : Nat → Except String String) (bookId : String)
    (n : Nat) : ∀ rem i, terminalCount (pageLoopFrom ps bookId n rem i).events = 0 := by
  intro rem
  induction rem with
  | zero => intro i; rfl
  | succ rem ih =>
    intro i
    rcases hps : ps i with m | url
    · simp [pageLoopFrom, hps, terminalCount]
    · simp only [pageLoopFrom, hps]
      simpa [terminalCount, List.countP_cons, isTerminalEvent] using ih (i + 1)

theorem pageLoop_terminalCount (ps : Nat → Except String String) (bookId : String)
    (n : Nat) : terminalCount (pageLoop ps bookId n).events = 0 :=
  pageLoopFrom_terminalCount ps bookId n n 1

theorem progressValues_append (l1 l2 : List Event) :
    progressValues (l1 ++ l2) = progressValues l1 ++ progressValues l2 := by
  induction l1 with
  | nil => rfl
  | cons e rest ih => cases e <;> simp [progressValues, ih]

theorem progressValues_map_progress (l : List Nat) (g : Nat → Nat) :
    progressValues (l.map (fun v => Event.progress (g v))) = l.map g := by
  induction l with
  | nil => rfl
  | cons v rest ih => simp [progressValues, ih]

theorem progressValues_okEvents (c : String) (n : Nat) :
    progressValues (okEvents c n) = (List.range' 1 n).map (fun p => jsRound (p * 100) n) := by
  simp [okEvents, progressValues, progressValues_append, okProgressEvents,
    progressValues_map_progress]

theorem deleteDocBlobs_flipbooks (st : ServerState) (d : BookData) :
    (deleteDocBlobs st d).flipbooks = st.flipbooks := by
  simp only [deleteDocBlobs]
  split <;> split <;> rfl

theorem deleteDocBlobs_teamMember (st : ServerState) (d : BookData) :
    (deleteDocBlobs st d).teamMember = st.teamMember := by
  simp only [deleteDocBlobs]
  split <;> split <;> rfl

theorem deleteDocBlobs_jobs (st : ServerState) (d : BookData) :
    (deleteDocBlobs st d).processingJobs = st.processingJobs := by
  simp only [deleteDocBlobs]
  split <;> split <;> rfl

theorem setCollection_jobs (st : ServerState) (n b : String) (d : BookData) :
    (setCollection st n b d).processingJobs = st.processingJobs := by
  unfold setCollection
  split
  · rfl
  · split <;> rfl

theorem tierGet_cleanup (st : ServerState) (jobId n b : String) :
    tierGet (cleanupJobStep st jobId) n b = tierGet st n b := by
  unfold tierGet cleanupJobStep
  rfl

theorem tierGet_setCollection_self (st : ServerState) (n b : String) (d : BookData)
    (h : n = "flipbooks" ∨ n = "team-member") :
    tierGet (setCollection st n b d) n b = some d := by
  rcases h with h | h <;> subst h
  · simp [tierGet, setCollection, alGet_alSet_self]
  · have h1 : ("team-member" : String) ≠ "flipbooks" := by decide
    simp [tierGet, setCollection, alGet_alSet_self, h1]

theorem processStream_noJob (st : ServerState) (jobId bookId : String) (fx : Effects)
    (h : lookupJobStep st jobId = none) :
    processStream st jobId bookId fx =
      { claimedJob := none, events := [Event.error "Job not found or has expired."],
        uploads := [], state := st } := by
  simp [processStream, h]

theorem processStream_run_ok (st : ServerState) (jobId bookId : String) (job : Job)
    (fx : Effects) (urlOf : Nat → String) (n : Nat)
    (hjob : lookupJobStep st jobId = some job)
    (hsave : fx.saveOriginalResult = Except.ok ())
    (hdec : fx.decodeResult = Except.ok n)
    (hps : ∀ i, fx.pageStep i = Except.ok (urlOf i))
    (hper : fx.persistResult = Except.ok ()) :
    processStream st jobId bookId fx =
      { claimedJob := some job,
        events := okEvents job.targetCollection n,
        uploads := originalPdfPath bookId job.file.originalname :: okPageUploads bookId n,
        state := cleanupJobStep
          (setCollection
            { st with blobs := runBlobs st bookId job.file.originalname (okPageUploads bookId n) }
            job.targetCollection bookId (okBookData job bookId urlOf n fx.timestamp))
          jobId } := by
  simp only [processStream, hjob, processStreamWithJob, hsave, hdec, hper,
    pageLoop_ok fx.pageStep urlOf bookId n hps]
  simp [okEvents, okBookData, runBlobs]

theorem processStream_run_saveFail (st : ServerState) (jobId bookId : String) (job : Job)
    (fx : Effects) (m : String)
    (hjob : lookupJobStep st jobId = some job)
    (hsave : fx.saveOriginalResult = Except.error m) :
    processStream st jobId bookId fx =
      { claimedJob := some job,
        events :=
          [Event.log ("Server received job for collection: " ++ job.targetCollection ++ "."),
           Event.log "Uploading original PDF to storage...",
           Event.error (jsErrMessage m)],
        uploads := [], state := cleanupJobStep st jobId } := by
  simp [processStream, hjob, processStreamWithJob, hsave]

theorem processStream_run_decodeFail (st : ServerState) (jobId bookId : String) (job : Job)
    (fx : Effects) (m : String)
    (hjob : lookupJobStep st jobId = some job)
    (hsave : fx.saveOriginalResult = Except.ok ())
    (hdec : fx.decodeResult = Except.error m) :
    processStream st jobId bookId fx =
      { claimedJob := some job,
        events :=
          [Event.log ("Server received job for collection: " ++ job.targetCollection ++ "."),
           Event.log "Uploading original PDF to storage...",
           Event.log "Original PDF uploaded.",
           Event.log "Converting PDF to images...",
           Event.error (jsErrMessage m)],
        uploads := [originalPdfPath bookId job.file.originalname],
        state := cleanupJobStep
          { st with blobs := addBlob st.blobs (originalPdfPath bookId job.file.originalname) }
          jobId } := by
  simp [processStream, hjob, processStreamWithJob, hsave, hdec]

theorem processStream_run_pageFail (st : ServerState) (jobId bookId : String) (job : Job)
    (fx : Effects) (m : String) (n : Nat)
    (hjob : lookupJobStep st jobId = some job)
    (hsave : fx.saveOriginalResult = Except.ok ())
    (hdec : fx.decodeResult = Except.ok n)
    (hlf : (pageLoop fx.pageStep bookId n).failure = some m) :
    processStream st jobId bookId fx =
      { claimedJob := some job,
        events :=
          [Event.log ("Server received job for collection: " ++ job.targetCollection ++ "."),
           Event.log "Uploading original PDF to storage...",
           Event.log "Original PDF uploaded.",
           Event.log "Converting PDF to images..."] ++
          (pageLoop fx.pageStep bookId n).events ++ [Event.error (jsErrMessage m)],
        uploads := originalPdfPath bookId job.file.originalname ::
          (pageLoop fx.pageStep bookId n).uploads,
        state := cleanupJobStep
          { st with
            blobs := runBlobs st bookId job.file.originalname (pageLoop fx.pageStep bookId n).uploads }
          jobId } := by
  simp [processStream, hjob, processStreamWithJob, hsave, hdec, hlf, runBlobs]

theorem processStream_run_persistFail (st : ServerState) (jobId bookId : String) (job : Job)
    (fx : Effects) (m : String) (n : Nat)
    (hjob : lookupJobStep st jobId = some job)
    (hsave : fx.saveOriginalResult = Except.ok ())
    (hdec : fx.decodeResult = Except.ok n)
    (hlf : (pageLoop fx.pageStep bookId n).failure = none)
    (hper : fx.persistResult = Except.error m) :
    processStream st jobId bookId fx =
      { claimedJob := some job,
        events :=
          [Event.log ("Server received job for collection: " ++ job.targetCollection ++ "."),
           Event.log "Uploading original PDF to storage...",
           Event.log "Original PDF uploaded.",
           Event.log "Converting PDF to images..."] ++
          (pageLoop fx.pageStep bookId n).events ++
          [Event.log "All pages converted and uploaded.",
           Event.log ("Saving flipbook metadata to " ++ job.targetCollection ++ "..."),
           Event.error (jsErrMessage m)],
        uploads := originalPdfPath bookId job.file.originalname ::
          (pageLoop fx.pageStep bookId n).uploads,
        state := cleanupJobStep
          { st with
            blobs := runBlobs st bookId job.file.originalname (pageLoop fx.pageStep bookId n).uploads }
          jobId } := by
  simp [processStream, hjob, processStreamWithJob, hsave, hdec, hlf, hper, runBlobs]

theorem processStream_jobs (st : ServerState) (jobId bookId : String) (job : Job)
    (fx : Effects) (hjob : lookupJobStep st jobId = some job) :
    (processStream st jobId bookId fx).state.processingJobs
      = alDelete st.processingJobs jobId := by
  obtain ⟨sv, dr, ps, pr, ts⟩ := fx
  simp only [processStream, hjob, processStreamWithJob]
  cases sv with
  | error m => rfl
  | ok u =>
    cases dr with
    | error m => rfl
    | ok n =>
      rcases hlf : (pageLoop ps bookId n).failure with _ | m
      · cases pr with
        | error m2 => simp [hlf, cleanupJobStep]
        | ok u2 => simp [hlf, cleanupJobStep, setCollection_jobs]
      · simp [hlf, cleanupJobStep]

theorem processStream_run_noFail (st : ServerState) (jobId bookId : String) (job : Job)
    (fx : Effects) (n : Nat)
    (hjob : lookupJobStep st jobId = some job)
    (hsave : fx.saveOriginalResult = Except.ok ())
    (hdec : fx.decodeResult = Except.ok n)
    (hlf : (pageLoop fx.pageStep bookId n).failure = none)
    (hper : fx.persistResult = Except.ok ()) :
    processStream st jobId bookId fx =
      { claimedJob := some job,
        events :=
          [Event.log ("Server received job for collection: " ++ job.targetCollection ++ "."),
           Event.log "Uploading original PDF to storage...",
           Event.log "Original PDF uploaded.",
           Event.log "Converting PDF to images..."] ++
          (pageLoop fx.pageStep bookId n).events ++
          [Event.log "All pages converted and uploaded.",
           Event.log ("Saving flipbook metadata to " ++ job.targetCollection ++ "..."),
           Event.log "Metadata saved.",
           Event.done "Flipbook processed successfully!"],
        uploads := originalPdfPath bookId job.file.originalname ::
          (pageLoop fx.pageStep bookId n).uploads,
        state := cleanupJobStep
          (setCollection
            { st with
              blobs := runBlobs st bookId job.file.originalname (pageLoop fx.pageStep bookId n).uploads }
            job.targetCollection bookId
            (runBookData job bookId (pageLoop fx.pageStep bookId n).urls fx.timestamp))
          jobId } := by
  simp [processStream, hjob, processStreamWithJob, hsave, hdec, hlf, hper, runBlobs, runBookData]

theorem processStream_claimed (st : ServerState) (jobId bookId : String) (job : Job)
    (fx : Effects) (hjob : lookupJobStep st jobId = some job) :
    (processStream st jobId bookId fx).claimedJob = some job := by
  obtain ⟨sv, dr, ps, pr, ts⟩ := fx
  simp only [processStream, hjob, processStreamWithJob]
  cases sv with
  | error m => rfl
  | ok u =>
    cases dr with
    | error m => rfl
    | ok n =>
      rcases hlf : (pageLoop ps bookId n).failure with _ | m
      · cases pr with
        | error m2 => simp [hlf]
        | ok u2 => simp [hlf]
      · simp [hlf]

/-! Claim theorems. -/

/-- C1: for every bookId with a pending record, approve(bookId) atomically copies the
full record content into the public collection under the same bookId and deletes the
pending record, so afterwards the record exists in Public and not in Pending while the
registry and the bucket are untouched; for every bookId whose pending record is absent,
approve answers 500 with a message that the pending record does not exist and changes
nothing. -/
theorem approve_atomic_spec (st : ServerState) (bookId : String) (h : bookId ≠ "") :
    ((alGet st.teamMember bookId).isSome = true →
      (approveFlipbook st (some bookId)).1.status = 200
      ∧ alGet (approveFlipbook st (some bookId)).2.flipbooks bookId = alGet st.teamMember bookId
      ∧ alGet (approveFlipbook st (some bookId)).2.teamMember bookId = none
      ∧ (approveFlipbook st (some bookId)).2.processingJobs = st.processingJobs
      ∧ (approveFlipbook st (some bookId)).2.blobs = st.blobs)
    ∧ (alGet st.teamMember bookId = none →
      (approveFlipbook st (some bookId)).1.status = 500
      ∧ (approveFlipbook st (some bookId)).1.message
          = "Pending flipbook does not exist. It may have been deleted."
      ∧ (approveFlipbook st (some bookId)).2 = st) := by
  have ht : jsTruthyStr (some bookId) = true := by simp [jsTruthyStr, h]
  constructor
  · intro hs
    rcases Option.isSome_iff_exists.mp hs with ⟨d, hd⟩
    simp [approveFlipbook, ht, hd, alGet_alSet_self, alGet_alDelete_self]
  · intro hn
    simp [approveFlipbook, ht, hn]

/-- Witness for C1: approving the concrete pending record book1 succeeds, the record
appears in the public tier and disappears from the pending tier. -/
theorem approve_atomic_spec_witness :
    (approveFlipbook exApproveState (some "book1")).1.status = 200
    ∧ alGet (approveFlipbook exApproveState (some "book1")).2.flipbooks "book1" = some exBook
    ∧ alGet (approveFlipbook exApproveState (some "book1")).2.teamMember "book1" = none := by
  have h := approve_atomic_spec exApproveState "book1" (by decide)
  have h2 := h.1 (by decide)
  refine ⟨h2.1, ?_, h2.2.2.1⟩
  rw [h2.2.1]
  decide

/-- C5 counterexample: in the end-to-end reachable state obtained by submitting a team
upload, running the pipeline and approving the record, the public (flipbooks) record
book1 still carries the ownerId field (uid = user1), contradicting the claim that no
operation ever produces a Public-tier record containing an ownerId. -/
theorem ownerId_public_counterexample :
    Option.map BookData.uid (alGet exChainState.flipbooks "book1") = some (some "user1") := by
  decide

/-- C5 (amended): the pipeline persist attaches ownerId only to jobs carrying a truthy
uid (public-route jobs carry none), but approve copies the pending record verbatim, so
the public record obtained by approval keeps the ownerId field of the pending record. -/
theorem approve_preserves_ownerId (st : ServerState) (bookId : String) (d : BookData)
    (h : bookId ≠ "") (hd : alGet st.teamMember bookId = some d) :
    Option.map BookData.uid (alGet (approveFlipbook st (some bookId)).2.flipbooks bookId)
      = some d.uid := by
  have ht : jsTruthyStr (some bookId) = true := by simp [jsTruthyStr, h]
  simp [approveFlipbook, ht, hd, alGet_alSet_self]

/-- Witness for the amended C5: approving the concrete pending record preserves its
uid field in the public copy. -/
theorem approve_preserves_ownerId_witness :
    Option.map BookData.uid (alGet (approveFlipbook exApproveState (some "book1")).2.flipbooks "book1")
      = some (some "user1") := by
  have h := approve_preserves_ownerId exApproveState "book1" exBook (by decide) (by decide)
  exact h

/-- C6: for every bookId with a record in the given tier, the delete endpoint answers
200 after removing every blob under the record's image folder, best-effort removing the
single original blob (an already-absent original does not fail the operation) and
removing the record, leaving the other tier untouched. -/
theorem delete_cascade_spec (st : ServerState) (bookId : String) (d : BookData)
    (h0 : bookId ≠ "") (himg : d.imageFolderPath ≠ "") (hpdf : d.pdfPathInStorage ≠ "") :
    (alGet st.flipbooks bookId = some d →
      (deleteFlipbook st (some bookId)).1.status = 200
      ∧ (deleteFlipbook st (some bookId)).2.blobs
          = deleteBlobBestEffort (deleteFilesUnder st.blobs d.imageFolderPath) d.pdfPathInStorage
      ∧ alGet (deleteFlipbook st (some bookId)).2.flipbooks bookId = none
      ∧ (deleteFlipbook st (some bookId)).2.teamMember = st.teamMember)
    ∧ (alGet st.teamMember bookId = some d →
      (deleteTeamFlipbook st (some bookId)).1.status = 200
      ∧ (deleteTeamFlipbook st (some bookId)).2.blobs
          = deleteBlobBestEffort (deleteFilesUnder st.blobs d.imageFolderPath) d.pdfPathInStorage
      ∧ alGet (deleteTeamFlipbook st (some bookId)).2.teamMember bookId = none
      ∧ (deleteTeamFlipbook st (some bookId)).2.flipbooks = st.flipbooks) := by
  have ht : jsTruthyStr (some bookId) = true := by simp [jsTruthyStr, h0]
  constructor <;> intro hd
  · simp [deleteFlipbook, ht, hd, deleteDocBlobs, himg, hpdf, alGet_alDelete_self]
  · simp [deleteTeamFlipbook, ht, hd, deleteDocBlobs, himg, hpdf, alGet_alDelete_self]

/-- Witness for C6 at a concrete state whose original PDF blob is already absent from
the bucket: both deletes still answer 200, remove the page-image blobs and the record,
and keep the unrelated blob. -/
theorem delete_cascade_spec_witness :
    (deleteFlipbook exDeleteState (some "book1")).1.status = 200
    ∧ (deleteFlipbook exDeleteState (some "book1")).2.blobs = ["other/blob.bin"]
    ∧ alGet (deleteFlipbook exDeleteState (some "book1")).2.flipbooks "book1" = none
    ∧ (deleteTeamFlipbook exDeleteState (some "book1")).1.status = 200
    ∧ alGet (deleteTeamFlipbook exDeleteState (some "book1")).2.teamMember "book1" = none := by
  have h := delete_cascade_spec exDeleteState "book1" exBook (by decide) (by decide) (by decide)
  have h1 := h.1 (by decide)
  have h2 := h.2 (by decide)
  refine ⟨h1.1, ?_, h1.2.2.1, h2.1, h2.2.2.1⟩
  rw [h1.2.1]
  rfl

/-- C7: for every bookId with an existing pending record, the update endpoint performs
the blob cleanup, re-runs upload and rasterization for the same bookId and the new
file, and merges only the artifact fields (pdfName, pdfPathInStorage, imageFolderPath,
pageImageUrls, thumbnailUrl) and the timestamp into the record, leaving mainCategory,
subcategory and uid unchanged; when the pending record is absent it answers 404 and
changes nothing. -/
theorem update_replace_spec (st : ServerState) (bookId uid : String) (nf : UploadedFile)
    (fx : Effects) (urlOf : Nat → String) (n : Nat)
    (h0 : bookId ≠ "") (hu : uid ≠ "")
    (hsave : fx.saveOriginalResult = Except.ok ())
    (hdec : fx.decodeResult = Except.ok n)
    (hps : ∀ i, fx.pageStep i = Except.ok (urlOf i))
    (hper : fx.persistResult = Except.ok ()) :
    (alGet st.teamMember bookId = none →
      (updateTeamPdf st bookId (some uid) (some nf) fx).1.status = 404
      ∧ (updateTeamPdf st bookId (some uid) (some nf) fx).2 = st)
    ∧ (∀ old, alGet st.teamMember bookId = some old → old.imageFolderPath ≠ "" →
        old.pdfPathInStorage ≠ "" →
      (updateTeamPdf st bookId (some uid) (some nf) fx).1.status = 200
      ∧ alGet (updateTeamPdf st bookId (some uid) (some nf) fx).2.teamMember bookId
          = some (updatedBookData old bookId nf.originalname (okUrls urlOf n) fx.timestamp)
      ∧ (updatedBookData old bookId nf.originalname (okUrls urlOf n) fx.timestamp).mainCategory
          = old.mainCategory
      ∧ (updatedBookData old bookId nf.originalname (okUrls urlOf n) fx.timestamp).subcategory
          = old.subcategory
      ∧ (updatedBookData old bookId nf.originalname (okUrls urlOf n) fx.timestamp).uid = old.uid
      ∧ (updateTeamPdf st bookId (some uid) (some nf) fx).2.blobs
          = runBlobs (deleteDocBlobs st old) bookId nf.originalname (okPageUploads bookId n)
      ∧ (updateTeamPdf st bookId (some uid) (some nf) fx).2.flipbooks = st.flipbooks) := by
  have ht : jsTruthyStr (some uid) = true := by simp [jsTruthyStr, hu]
  constructor
  · intro hn
    simp [updateTeamPdf, ht, h0, hn]
  · intro old hd h1 h2
    simp [updateTeamPdf, ht, h0, hd, hsave, hdec, hper,
      pageLoop_ok fx.pageStep urlOf bookId n hps, alGet_alSet_self, updatedBookData,
      runBlobs, okUrls, deleteDocBlobs_flipbooks]

/-- Witness for C7: updating the concrete pending record book1 succeeds and the new
record keeps the old category, subcategory and uid while refreshing the artifacts. -/
theorem update_replace_spec_witness :
    (updateTeamPdf exApproveState "book1" (some "user1") (some exFile)
       (okEffects 2 exUrl 99)).1.status = 200
    ∧ Option.map BookData.uid
        (alGet (updateTeamPdf exApproveState "book1" (some "user1") (some exFile)
           (okEffects 2 exUrl 99)).2.teamMember "book1") = some (some "user1")
    ∧ Option.map BookData.pageImageUrls
        (alGet (updateTeamPdf exApproveState "book1" (some "user1") (some exFile)
           (okEffects 2 exUrl 99)).2.teamMember "book1")
        = some ["https://signed/page1", "https://signed/page2"] := by
  have h := update_replace_spec exApproveState "book1" "user1" exFile (okEffects 2 exUrl 99)
    exUrl 2 (by decide) (by decide) rfl rfl (fun i => rfl) rfl
  have h2 := h.2 exBook (by decide) (by decide) (by decide)
  refine ⟨h2.1, ?_, ?_⟩
  · rw [h2.2.1]
    rfl
  · rw [h2.2.1]
    rfl

/-- C8: submission validates that a file is present and both categories are truthy,
answering 400 (message Missing main category or subcategory. when the categories are
the problem) and registering nothing; the team route additionally answers 400 when the
uid is absent, registering nothing. -/
theorem submit_validation_spec (st : ServerState) (req : UploadRequest) (jobId : String) :
    (req.file = none →
      (uploadPdf st req jobId).1.status = 400 ∧ (uploadPdf st req jobId).2 = st
      ∧ (uploadTeamPdf st req jobId).1.status = 400 ∧ (uploadTeamPdf st req jobId).2 = st)
    ∧ (req.file ≠ none →
       (jsTruthyStr req.mainCategory = false ∨ jsTruthyStr req.subcategory = false) →
      (uploadPdf st req jobId).1
        = { status := 400, message := "Missing main category or subcategory." }
      ∧ (uploadPdf st req jobId).2 = st
      ∧ (jsTruthyStr req.uid = true →
          (uploadTeamPdf st req jobId).1
            = { status := 400, message := "Missing main category or subcategory." }
          ∧ (uploadTeamPdf st req jobId).2 = st))
    ∧ (jsTruthyStr req.uid = false →
      (uploadTeamPdf st req jobId).1
        = { status := 400, message := "User ID (uid) is required for this operation." }
      ∧ (uploadTeamPdf st req jobId).2 = st) := by
  refine ⟨?_, ?_, ?_⟩
  · intro hf
    rcases hu : jsTruthyStr req.uid with _ | _
    · simp [uploadPdf, uploadTeamPdf, createUploadJob, hf, hu]
    · simp [uploadPdf, uploadTeamPdf, createUploadJob, hf, hu]
  · intro hf hcat
    rcases Option.ne_none_iff_exists'.mp hf with ⟨f, hfs⟩
    have hcond : (!jsTruthyStr req.mainCategory || !jsTruthyStr req.subcategory) = true := by
      rcases hcat with hc | hc <;> simp [hc]
    refine ⟨?_, ?_, ?_⟩
    · simp [uploadPdf, createUploadJob, hfs, hcond]
    · simp [uploadPdf, createUploadJob, hfs, hcond]
    · intro hu
      constructor
      · simp [uploadTeamPdf, createUploadJob, hfs, hcond, hu]
      · simp [uploadTeamPdf, createUploadJob, hfs, hcond, hu]
  · intro hu
    constructor
    · simp [uploadTeamPdf, hu]
    · simp [uploadTeamPdf, hu]

/-- Witness for C8: a request with a file but an empty subcategory is rejected with the
category message on both routes and the registry stays empty; a request without uid is
rejected by the team route. -/
theorem submit_validation_spec_witness :
    (uploadPdf emptyState
       { file := some exFile, mainCategory := some "Sports", subcategory := some "",
         uid := some "user1" } "job9").1.message = "Missing main category or subcategory."
    ∧ (uploadPdf emptyState
       { file := some exFile, mainCategory := some "Sports", subcategory := some "",
         uid := some "user1" } "job9").2 = emptyState
    ∧ (uploadTeamPdf emptyState
       { file := some exFile, mainCategory := some "Sports", subcategory := some "",
         uid := none } "job9").1.status = 400 := by
  have h := submit_validation_spec emptyState
    { file := some exFile, mainCategory := some "Sports", subcategory := some "",
      uid := some "user1" } "job9"
  have h2 := h.2.1 (by decide) (Or.inr (by decide))
  have h3 := submit_validation_spec emptyState
    { file := some exFile, mainCategory := some "Sports", subcategory := some "",
      uid := none } "job9"
  have h4 := h3.2.2 (by decide)
  exact ⟨by rw [h2.1], h2.2.1, by rw [h4.1]⟩

/-- C2 counterexample: the stream handler reads the job without removing it (removal
happens only in the finally cleanup at the end of the run), so in the interleaving in
which two handlers for the same token both perform their registry read before either
cleanup — which the event loop permits, because the run awaits external IO between the
two — both runs receive the same job: claim is not an atomic consume-once removal. -/
theorem claim_not_atomic_counterexample :
    (twoStreamsInterleaved exRegistryState "tok1").1 = some exJob
    ∧ (twoStreamsInterleaved exRegistryState "tok1").2.1 = some exJob
    ∧ lookupJobStep exRegistryState "tok1" = some exJob := by
  exact ⟨rfl, rfl, rfl⟩

/-- C2 (amended): the job is looked up at the start of the run and removed only by the
final cleanup; sequentially this gives consume-once behaviour: a run over a registered
token consumes exactly that job, afterwards the token is gone from the registry, and a
second run on the same token receives no job, emits only the Job-not-found error event
and leaves the state unchanged. Two runs interleaved before either cleanup, however,
both receive the job (see the counterexample). -/
theorem claim_consume_once (st : ServerState) (tok bookIdA bookIdB : String) (job : Job)
    (fxA fxB : Effects) (hjob : lookupJobStep st tok = some job) :
    (processStream st tok bookIdA fxA).claimedJob = some job
    ∧ lookupJobStep (processStream st tok bookIdA fxA).state tok = none
    ∧ (processStream (processStream st tok bookIdA fxA).state tok bookIdB fxB).claimedJob = none
    ∧ (processStream (processStream st tok bookIdA fxA).state tok bookIdB fxB).events
        = [Event.error "Job not found or has expired."]
    ∧ (processStream (processStream st tok bookIdA fxA).state tok bookIdB fxB).state
        = (processStream st tok bookIdA fxA).state := by
  have hjobs := processStream_jobs st tok bookIdA job fxA hjob
  have hl : lookupJobStep (processStream st tok bookIdA fxA).state tok = none := by
    rw [lookupJobStep, hjobs]
    exact alGet_alDelete_self _ _
  refine ⟨processStream_claimed st tok bookIdA job fxA hjob, hl, ?_, ?_, ?_⟩ <;>
    rw [processStream_noJob _ tok bookIdB fxB hl]

/-- Witness for the amended C2 at the concrete registry state holding one job. -/
theorem claim_consume_once_witness :
    (processStream exRegistryState "tok1" "bookA" fx201).claimedJob = some exJob
    ∧ (processStream (processStream exRegistryState "tok1" "bookA" fx201).state
         "tok1" "bookB" fx201).claimedJob = none
    ∧ (processStream (processStream exRegistryState "tok1" "bookA" fx201).state
         "tok1" "bookB" fx201).events = [Event.error "Job not found or has expired."] := by
  have h := claim_consume_once exRegistryState "tok1" "bookA" "bookB" exJob fx201 fx201 rfl
  exact ⟨h.1, h.2.2.1, h.2.2.2.1⟩

set_option maxRecDepth 100000 in
/-- C3 counterexample: for a successfully processed 201-page document the pipeline
emits 201 progress events whose first value is Math.round(100 / 201) = 0, so the
progress sequence does not start above 0. -/
theorem progress_starts_positive_counterexample :
    (progressValues (processStream exRegistryState "tok1" "bookC" fx201).events).headD 1 = 0
    ∧ (progressValues (processStream exRegistryState "tok1" "bookC" fx201).events).length
        = 201 := by
  constructor <;> decide

/-- C3 (amended): for every successfully processed document of N pages (N at least 1),
the pipeline emits exactly N progress events with the i-th value Math.round(i / N * 100);
the sequence is monotonically non-decreasing, its last value is exactly 100, its first
value is above 0 whenever N is at most 200 (for larger N the first values are 0), and
exactly N page-image upload calls occur. -/
theorem progress_sequence_spec (st : ServerState) (jobId bookId : String) (job : Job)
    (fx : Effects) (urlOf : Nat → String) (n : Nat)
    (hjob : lookupJobStep st jobId = some job) (hn : 1 ≤ n)
    (hsave : fx.saveOriginalResult = Except.ok ())
    (hdec : fx.decodeResult = Except.ok n)
    (hps : ∀ i, fx.pageStep i = Except.ok (urlOf i))
    (hper : fx.persistResult = Except.ok ()) :
    progressValues (processStream st jobId bookId fx).events
      = (List.range' 1 n).map (fun p => jsRound (p * 100) n)
    ∧ (progressValues (processStream st jobId bookId fx).events).length = n
    ∧ List.Pairwise (· ≤ ·) (progressValues (processStream st jobId bookId fx).events)
    ∧ (progressValues (processStream st jobId bookId fx).events).getLast? = some 100
    ∧ (n ≤ 200 → 0 < (progressValues (processStream st jobId bookId fx).events).headD 0)
    ∧ (processStream st jobId bookId fx).uploads
        = originalPdfPath bookId job.file.originalname :: okPageUploads bookId n
    ∧ (okPageUploads bookId n).length = n := by
  have hrun := processStream_run_ok st jobId bookId job fx urlOf n hjob hsave hdec hps hper
  have hev : (processStream st jobId bookId fx).events = okEvents job.targetCollection n := by
    rw [hrun]
  have hup : (processStream st jobId bookId fx).uploads
      = originalPdfPath bookId job.file.originalname :: okPageUploads bookId n := by
    rw [hrun]
  rw [hev, hup, progressValues_okEvents]
  obtain ⟨m, rfl⟩ : ∃ m, n = m + 1 := ⟨n - 1, by omega⟩
  refine ⟨rfl, by simp, ?_, ?_, ?_, rfl, by simp [okPageUploads]⟩
  · exact List.Pairwise.map _ (fun a b hab => jsRound_mono _ (by omega))
      (List.pairwise_lt_range' 1 (m + 1))
  · rw [List.range'_concat]
    have h1m : 1 + 1 * m = m + 1 := by omega
    rw [h1m, List.map_append, List.map_singleton, List.getLast?_concat,
      jsRound_full (m + 1) (by omega)]
  · intro h200
    rw [List.range'_succ]
    simp only [List.map_cons, List.headD_cons]
    exact jsRound_first_pos (m + 1) (by omega) h200

/-- Witness for the amended C3 on a concrete three-page run: progress values 33, 67,
100, pairwise non-decreasing, last 100, first positive, three page uploads. -/
theorem progress_sequence_spec_witness :
    progressValues (processStream exRegistryState "tok1" "bookD" (okEffects 3 exUrl 1)).events
      = [33, 67, 100]
    ∧ (processStream exRegistryState "tok1" "bookD" (okEffects 3 exUrl 1)).uploads
      = ["source-pdfs/bookD/doc.pdf", "processed-images/bookD/page-1.jpg",
         "processed-images/bookD/page-2.jpg", "processed-images/bookD/page-3.jpg"] := by
  have h := progress_sequence_spec exRegistryState "tok1" "bookD" exJob (okEffects 3 exUrl 1)
    exUrl 3 rfl (by decide) rfl rfl (fun i => rfl) rfl
  refine ⟨?_, ?_⟩
  · rw [h.1]
    rfl
  · rw [h.2.2.2.2.2.1]
    rfl

/-- C4: every successfully persisted record has pageImageUrls of length equal to the
rasterized page count in page order, and thumbnailUrl equals the first page URL when
the page count is at least 1 and is absent (null) when the page count is 0. -/
theorem record_contents_spec (st : ServerState) (jobId bookId : String) (job : Job)
    (fx : Effects) (urlOf : Nat → String) (n : Nat)
    (hjob : lookupJobStep st jobId = some job)
    (hcoll : job.targetCollection = "flipbooks" ∨ job.targetCollection = "team-member")
    (hsave : fx.saveOriginalResult = Except.ok ())
    (hdec : fx.decodeResult = Except.ok n)
    (hps : ∀ i, fx.pageStep i = Except.ok (urlOf i))
    (hper : fx.persistResult = Except.ok ()) :
    tierGet (processStream st jobId bookId fx).state job.targetCollection bookId
      = some (okBookData job bookId urlOf n fx.timestamp)
    ∧ (okBookData job bookId urlOf n fx.timestamp).pageImageUrls = okUrls urlOf n
    ∧ (okUrls urlOf n).length = n
    ∧ (okBookData job bookId urlOf n fx.timestamp).thumbnailUrl = (okUrls urlOf n).head?
    ∧ (1 ≤ n → (okUrls urlOf n).head? = some (urlOf 1))
    ∧ (n = 0 → (okBookData job bookId urlOf n fx.timestamp).thumbnailUrl = none) := by
  have hrun := processStream_run_ok st jobId bookId job fx urlOf n hjob hsave hdec hps hper
  have hstate : (processStream st jobId bookId fx).state
      = cleanupJobStep
          (setCollection
            { st with blobs := runBlobs st bookId job.file.originalname (okPageUploads bookId n) }
            job.targetCollection bookId (okBookData job bookId urlOf n fx.timestamp))
          jobId := by
    rw [hrun]
  have hget : tierGet (processStream st jobId bookId fx).state job.targetCollection bookId
      = some (okBookData job bookId urlOf n fx.timestamp) := by
    rw [hstate, tierGet_cleanup, tierGet_setCollection_self _ _ _ _ hcoll]
  refine ⟨hget, rfl, by simp [okUrls], rfl, ?_, ?_⟩
  · intro hn
    obtain ⟨m, rfl⟩ : ∃ m, n = m + 1 := ⟨n - 1, by omega⟩
    rw [okUrls, List.range'_succ]
    simp
  · intro hn
    subst hn
    rfl

/-- Witness for C4 on a concrete two-page run into the pending tier. -/
theorem record_contents_spec_witness :
    tierGet (processStream exRegistryState "tok1" "bookE" (okEffects 2 exUrl 8)).state
        "team-member" "bookE"
      = some (okBookData exJob "bookE" exUrl 2 8)
    ∧ (okBookData exJob "bookE" exUrl 2 8).pageImageUrls
        = ["https://signed/page1", "https://signed/page2"]
    ∧ (okBookData exJob "bookE" exUrl 2 8).thumbnailUrl = some "https://signed/page1" := by
  have h := record_contents_spec exRegistryState "tok1" "bookE" exJob (okEffects 2 exUrl 8)
    exUrl 2 rfl (Or.inr rfl) rfl rfl (fun i => rfl) rfl
  exact ⟨h.1, rfl, rfl⟩

/-- C10: a well-formed zero-page document terminates in Done: the original blob is the
only upload, no progress event is emitted, the persisted record has empty pageImageUrls
and null thumbnailUrl, and the stream ends with the done event. -/
theorem zero_page_run_spec (st : ServerState) (jobId bookId : String) (job : Job)
    (fx : Effects)
    (hjob : lookupJobStep st jobId = some job)
    (hcoll : job.targetCollection = "flipbooks" ∨ job.targetCollection = "team-member")
    (hsave : fx.saveOriginalResult = Except.ok ())
    (hdec : fx.decodeResult = Except.ok 0)
    (hper : fx.persistResult = Except.ok ()) :
    (processStream st jobId bookId fx).events = okEvents job.targetCollection 0
    ∧ progressValues (processStream st jobId bookId fx).events = []
    ∧ (processStream st jobId bookId fx).events.getLast?
        = some (Event.done "Flipbook processed successfully!")
    ∧ (processStream st jobId bookId fx).uploads = [originalPdfPath bookId job.file.originalname]
    ∧ Option.map BookData.pageImageUrls
        (tierGet (processStream st jobId bookId fx).state job.targetCollection bookId)
        = some []
    ∧ Option.map BookData.thumbnailUrl
        (tierGet (processStream st jobId bookId fx).state job.targetCollection bookId)
        = some none := by
  have hlf : (pageLoop fx.pageStep bookId 0).failure = none := rfl
  have hrun := processStream_run_noFail st jobId bookId job fx 0 hjob hsave hdec hlf hper
  have hev : (processStream st jobId bookId fx).events = okEvents job.targetCollection 0 := by
    rw [hrun]
    simp [okEvents, okProgressEvents, pageLoop, pageLoopFrom]
  have hstate : (processStream st jobId bookId fx).state
      = cleanupJobStep
          (setCollection
            { st with blobs := runBlobs st bookId job.file.originalname [] }
            job.targetCollection bookId (runBookData job bookId [] fx.timestamp))
          jobId := by
    rw [hrun]
    rfl
  have hget : tierGet (processStream st jobId bookId fx).state job.targetCollection bookId
      = some (runBookData job bookId [] fx.timestamp) := by
    rw [hstate, tierGet_cleanup, tierGet_setCollection_self _ _ _ _ hcoll]
  refine ⟨hev, ?_, ?_, ?_, ?_, ?_⟩
  · rw [hev]
    rfl
  · rw [hev]
    rfl
  · rw [hrun]
    rfl
  · rw [hget]
    rfl
  · rw [hget]
    rfl

/-- Witness for C10 on a concrete zero-page run into the pending tier. -/
theorem zero_page_run_spec_witness :
    progressValues (processStream exRegistryState "tok1" "bookF" (okEffects 0 exUrl 3)).events
      = []
    ∧ (processStream exRegistryState "tok1" "bookF" (okEffects 0 exUrl 3)).events.getLast?
        = some (Event.done "Flipbook processed successfully!")
    ∧ Option.map BookData.pageImageUrls
        (tierGet (processStream exRegistryState "tok1" "bookF" (okEffects 0 exUrl 3)).state
          "team-member" "bookF") = some []
    ∧ Option.map BookData.thumbnailUrl
        (tierGet (processStream exRegistryState "tok1" "bookF" (okEffects 0 exUrl 3)).state
          "team-member" "bookF") = some none := by
  have h := zero_page_run_spec exRegistryState "tok1" "bookF" exJob (okEffects 0 exUrl 3)
    rfl (Or.inr rfl) rfl rfl rfl
  exact ⟨h.2.1, h.2.2.1, h.2.2.2.2.1, h.2.2.2.2.2⟩

/-- C9: for every pipeline run over a registered job, the run ends with exactly one
terminal event which is its last event; when some step fails, the last event is the
error event carrying the first failing step's message (with the default substituted for
an empty one) and no record is written to either collection; when every step succeeds,
the last event is the done event. In every case the job entry is removed from the
registry and the stream is closed by the finally block. -/
theorem terminal_event_spec (st : ServerState) (jobId bookId : String) (job : Job)
    (fx : Effects) (hjob : lookupJobStep st jobId = some job) :
    (processStream st jobId bookId fx).state.processingJobs = alDelete st.processingJobs jobId
    ∧ terminalCount (processStream st jobId bookId fx).events = 1
    ∧ Option.map isTerminalEvent (processStream st jobId bookId fx).events.getLast? = some true
    ∧ ((pipelineFailure bookId fx).isSome = true →
        (processStream st jobId bookId fx).events.getLast?
          = Option.map (fun m => Event.error (jsErrMessage m)) (pipelineFailure bookId fx)
        ∧ (processStream st jobId bookId fx).state.flipbooks = st.flipbooks
        ∧ (processStream st jobId bookId fx).state.teamMember = st.teamMember)
    ∧ (pipelineFailure bookId fx = none →
        (processStream st jobId bookId fx).events.getLast?
          = some (Event.done "Flipbook processed successfully!")) := by
  refine ⟨processStream_jobs st jobId bookId job fx hjob, ?_⟩
  rcases hsv : fx.saveOriginalResult with m | u
  · have hrun := processStream_run_saveFail st jobId bookId job fx m hjob hsv
    have hpf : pipelineFailure bookId fx = some m := by
      simp only [pipelineFailure, hsv]
    rw [hrun, hpf]
    refine ⟨?_, ?_, ?_, ?_⟩
    · simp [terminalCount, isTerminalEvent]
    · simp [isTerminalEvent]
    · intro _
      exact ⟨by simp, rfl, rfl⟩
    · intro hc
      simp at hc
  · cases u
    rcases hdr : fx.decodeResult with m | n
    · have hrun := processStream_run_decodeFail st jobId bookId job fx m hjob hsv hdr
      have hpf : pipelineFailure bookId fx = some m := by
        simp only [pipelineFailure, hsv, hdr]
      rw [hrun, hpf]
      refine ⟨?_, ?_, ?_, ?_⟩
      · simp [terminalCount, isTerminalEvent]
      · simp [isTerminalEvent]
      · intro _
        exact ⟨by simp, rfl, rfl⟩
      · intro hc
        simp at hc
    · rcases hlf : (pageLoop fx.pageStep bookId n).failure with _ | m
      · rcases hpr : fx.persistResult with m2 | u2
        · have hrun := processStream_run_persistFail st jobId bookId job fx m2 n
            hjob hsv hdr hlf hpr
          have hpf : pipelineFailure bookId fx = some m2 := by
            simp only [pipelineFailure, hsv, hdr, hlf, hpr]
          rw [hrun, hpf]
          have hcnt := pageLoop_terminalCount fx.pageStep bookId n
          refine ⟨?_, ?_, ?_, ?_⟩
          · simp only [terminalCount] at hcnt
            simp only [terminalCount, List.countP_append, hcnt]
            simp [List.countP_cons, isTerminalEvent]
          · simp only [List.getLast?_append, List.getLast?_cons_cons,
              List.getLast?_singleton, Option.or_some]
            rfl
          · intro _
            refine ⟨?_, rfl, rfl⟩
            simp only [List.getLast?_append, List.getLast?_cons_cons,
              List.getLast?_singleton, Option.or_some]
            rfl
          · intro hc
            simp at hc
        · cases u2
          have hrun := processStream_run_noFail st jobId bookId job fx n hjob hsv hdr hlf hpr
          have hpf : pipelineFailure bookId fx = none := by
            simp only [pipelineFailure, hsv, hdr, hlf, hpr]
          rw [hrun, hpf]
          have hcnt := pageLoop_terminalCount fx.pageStep bookId n
          refine ⟨?_, ?_, ?_, ?_⟩
          · simp only [terminalCount] at hcnt
            simp only [terminalCount, List.countP_append, hcnt]
            simp [List.countP_cons, isTerminalEvent]
          · simp only [List.getLast?_append, List.getLast?_cons_cons,
              List.getLast?_singleton, Option.or_some]
            rfl
          · intro hc
            simp at hc
          · intro _
            simp only [List.getLast?_append, List.getLast?_cons_cons,
              List.getLast?_singleton, Option.or_some]
      · have hrun := processStream_run_pageFail st jobId bookId job fx m n hjob hsv hdr hlf
        have hpf : pipelineFailure bookId fx = some m := by
          simp only [pipelineFailure, hsv, hdr, hlf]
        rw [hrun, hpf]
        have hcnt := pageLoop_terminalCount fx.pageStep bookId n
        refine ⟨?_, ?_, ?_, ?_⟩
        · simp only [terminalCount] at hcnt
          simp only [terminalCount, List.countP_append, hcnt]
          simp [List.countP_cons, isTerminalEvent]
        · simp only [List.getLast?_append, List.getLast?_cons_cons,
            List.getLast?_singleton, Option.or_some]
          rfl
        · intro _
          refine ⟨?_, rfl, rfl⟩
          simp only [List.getLast?_append, List.getLast?_cons_cons,
            List.getLast?_singleton, Option.or_some]
          rfl
        · intro hc
          simp at hc

/-- Witness for C9 on a run whose decode step fails: the stream ends with the single
error event carrying the failure message, the collections are untouched and the job is
gone from the registry. -/
theorem terminal_event_spec_witness :
    (processStream exRegistryState "tok1" "bookG"
       { saveOriginalResult := Except.ok (), decodeResult := Except.error "bad pdf",
         pageStep := fun i => Except.ok (exUrl i), persistResult := Except.ok (),
         timestamp := 0 }).state.processingJobs = []
    ∧ terminalCount (processStream exRegistryState "tok1" "bookG"
       { saveOriginalResult := Except.ok (), decodeResult := Except.error "bad pdf",
         pageStep := fun i => Except.ok (exUrl i), persistResult := Except.ok (),
         timestamp := 0 }).events = 1
    ∧ (processStream exRegistryState "tok1" "bookG"
       { saveOriginalResult := Except.ok (), decodeResult := Except.error "bad pdf",
         pageStep := fun i => Except.ok (exUrl i), persistResult := Except.ok (),
         timestamp := 0 }).events.getLast? = some (Event.error "bad pdf")
    ∧ (processStream exRegistryState "tok1" "bookG"
       { saveOriginalResult := Except.ok (), decodeResult := Except.error "bad pdf",
         pageStep := fun i => Except.ok (exUrl i), persistResult := Except.ok (),
         timestamp := 0 }).state.flipbooks = [] := by
  have h := terminal_event_spec exRegistryState "tok1" "bookG" exJob
    { saveOriginalResult := Except.ok (), decodeResult := Except.error "bad pdf",
      pageStep := fun i => Except.ok (exUrl i), persistResult := Except.ok (),
      timestamp := 0 } rfl
  have h4 := h.2.2.2.1 (by rfl)
  refine ⟨?_, h.2.1, ?_, ?_⟩
  · rw [h.1]
    rfl
  · rw [h4.1]
    rfl
  · rw [h4.2.1]
    rfl

end Server
